import Mathlib

/-
  Verification of the shove order-processing pipeline (src/shove/shove.py).

  The embedding models the pure control flow of `parse_order`, `execute` and
  `consume_message`. External effects are represented explicitly:
  - the project-path table (`settings.PROJECTS`), the filesystem and the
    subprocess runner are fields of an `Env` record;
  - `execute` additionally returns the list of effects it performed
    (file reads and subprocess spawns), so claims about "no subprocess is
    spawned" are statable;
  - `consume_message` returns the list of channel actions (queue declarations
    and publishes) it performs, or the Python exception that escaped it.

  Python exceptions are modelled with `Except`: `json.loads` may raise
  (only `KeyError` is caught by `parse_order`, so a JSON decode error
  propagates), `open`/`read` failures are modelled by `Env.readFile`
  returning `Except.error` with the IOError text (caught by `execute`).
  Subprocess spawning is modelled as total: honcho's `Process` runs the
  invocation through the shell (`shell=True`), so an invocation that cannot
  be started surfaces as the shell's exit code and error text in the
  returned `(returncode, output)` pair rather than as an exception.
-/

namespace Shove

/-- Order namedtuple from shove.py line 29: `Order = namedtuple('Order',
('project', 'command', 'log_key', 'log_queue'))`. -/
structure Order where
  project : String
  command : String
  log_key : String
  log_queue : String
  deriving DecidableEq, Repr

/-- Python exception escaping the modelled code. Only the `ValueError`
raised by `json.loads` on an unparseable body can escape. -/
inductive PyError where
  | valueError : String → PyError
  deriving DecidableEq, Repr

/-- Raw inbound message body, abstracted to the outcome of JSON parsing:
either not parseable as JSON at all, or a flat JSON object (dict) with
string values. -/
inductive RawBody where
  | notJson : String → RawBody
  | dict : List (String × String) → RawBody
  deriving DecidableEq, Repr

/-- Model of `json.loads(order_body)`: raises ValueError on an unparseable
body, otherwise yields the parsed dict. -/
def json_loads : RawBody → Except PyError (List (String × String))
  | RawBody.notJson raw =>
      Except.error (PyError.valueError ("No JSON object could be decoded: " ++ raw))
  | RawBody.dict fields => Except.ok fields

/-- Python dict lookup `data[key]` as an Option: the last binding of the key
wins, as in a dict built by successive insertion. -/
def dictGet (fields : List (String × String)) (key : String) : Option String :=
  (fields.reverse.find? (fun kv => kv.1 = key)).map (fun kv => kv.2)

/-- Embedding of `parse_order` (shove.py lines 49-56). `json.loads` runs
OUTSIDE the try block, so its ValueError propagates (`Except.error`); only
the `KeyError` from a missing dict key is caught, logged, and turned into
`None`. -/
def parse_order (order_body : RawBody) : Except PyError (Option Order) :=
  match json_loads order_body with
  | Except.error e => Except.error e
  | Except.ok data =>
    match dictGet data "project", dictGet data "command",
          dictGet data "log_key", dictGet data "log_queue" with
    | some p, some c, some k, some q =>
        Except.ok (some { project := p, command := c, log_key := k, log_queue := q })
    | _, _, _, _ => Except.ok none

/-- Procfile name characters accepted by honcho's line regex
`^([A-Za-z0-9_]+):\s*(.+)$` (external manifest-format library). -/
def isProcfileNameChar (c : Char) : Bool :=
  c.isAlpha || c.isDigit || c = '_'

/-- Model of honcho's Procfile line parsing (external library): a line is an
entry when it starts with a nonempty run of name characters followed by a
colon and a nonempty invocation (leading whitespace after the colon is
dropped); any other line is skipped. -/
def parseProcfileLine (chars : List Char) : Option (String × String) :=
  let name := chars.takeWhile isProcfileNameChar
  let rest := chars.dropWhile isProcfileNameChar
  match rest with
  | ':' :: after =>
    let cmd := after.dropWhile (fun c => c = ' ' || c = '\t')
    if name.isEmpty || cmd.isEmpty then none
    else some (String.mk name, String.mk cmd)
  | _ => none

/-- Splitting a character sequence into lines at newline characters
(behaviour of `str.splitlines()` over the manifest text). -/
def splitLines (chars : List Char) : List (List Char) :=
  match chars with
  | [] => [[]]
  | c :: rest =>
    if c = '\n' then [] :: splitLines rest
    else
      match splitLines rest with
      | [] => [[c]]
      | line :: more => (c :: line) :: more

/-- Model of `Procfile(contents).commands`: the mapping built line by line. -/
def procfile_commands (contents : String) : List (String × String) :=
  (splitLines contents.toList).filterMap parseProcfileLine

/-- Model of `procfile.commands.get(name)` (dict get, last binding wins). -/
def commands_get (cmds : List (String × String)) (name : String) : Option String :=
  (cmds.reverse.find? (fun kv => kv.1 = name)).map (fun kv => kv.2)

/-- Python truthiness test `not x` for an optional string: true when the
lookup returned nothing OR returned an empty string. `execute` uses this
for both `if not project_path` and `if not command`. -/
def pyFalsyStr : Option String → Bool
  | none => true
  | some s => s.isEmpty

/-- Side effects performed by `execute`: reading a file, or spawning a
subprocess with a command line and a working directory. -/
inductive Effect where
  | fileRead : String → Effect
  | spawn : String → String → Effect
  deriving DecidableEq, Repr

/-- External world seen by `execute`:
`projects` is `settings.PROJECTS.get`, `readFile` is `open(path).read()`
(`Except.error` carries the IOError text), `runProcess` is
`Process(command, cwd=...).communicate()` plus `returncode` — total, since
the shell reports an unstartable invocation through its exit status. -/
structure Env where
  projects : String → Option String
  readFile : String → Except String String
  runProcess : String → String → Int × String

/-- Manifest path computed by `os.path.join(project_path, 'bin',
'commands.procfile')` (shove.py line 84). -/
def procfile_path (project_path : String) : String :=
  project_path ++ "/bin/commands.procfile"

/-- Embedding of `execute` (shove.py lines 59-104). Returns the
`(return_code, output)` pair together with the list of effects performed.
Mirrors the source's three early returns (falsy project path, IOError
while reading the procfile, falsy command lookup) and the final spawn. -/
def execute (env : Env) (order : Order) : (Int × String) × List Effect :=
  match env.projects order.project with
  | none =>
      ((1, "No project `" ++ order.project ++ "` found."), [])
  | some project_path =>
    if project_path.isEmpty then
      ((1, "No project `" ++ order.project ++ "` found."), [])
    else
      let pp := procfile_path project_path
      match env.readFile pp with
      | Except.error err =>
          ((1, "Error loading procfile for project `" ++ order.project ++ "`: " ++ err),
           [Effect.fileRead pp])
      | Except.ok contents =>
        match commands_get (procfile_commands contents) order.command with
        | none =>
            ((1, "No command `" ++ order.command ++ "` found in " ++ pp),
             [Effect.fileRead pp])
        | some command =>
          if command.isEmpty then
            ((1, "No command `" ++ order.command ++ "` found in " ++ pp),
             [Effect.fileRead pp])
          else
            (env.runProcess command project_path,
             [Effect.fileRead pp, Effect.spawn command project_path])

/-- Result Message payload built by `consume_message` (shove.py lines
116-121): `json.dumps` of a dict with exactly these four fields. -/
structure ResultMessage where
  version : String
  log_key : String
  return_code : Int
  output : String
  deriving DecidableEq, Repr

/-- Channel operations performed by `consume_message`: declaring a queue
(with its durable flag) and publishing a Result Message to a routing key. -/
inductive ChannelAction where
  | queueDeclare : String → Bool → ChannelAction
  | basicPublish : String → ResultMessage → ChannelAction
  deriving DecidableEq, Repr

/-- Embedding of `consume_message` (shove.py lines 107-122). Returns the
channel actions performed in order together with `execute`'s effects, or
the Python exception that escaped (only `parse_order` can raise here). -/
def consume_message (env : Env) (body : RawBody) :
    Except PyError (List ChannelAction × List Effect) :=
  match parse_order body with
  | Except.error e => Except.error e
  | Except.ok none => Except.ok ([], [])
  | Except.ok (some order) =>
    let r := execute env order
    Except.ok
      ([ChannelAction.queueDeclare order.log_queue true,
        ChannelAction.basicPublish order.log_queue
          { version := "1.0", log_key := order.log_key,
            return_code := r.1.1, output := r.1.2 }],
       r.2)

/-- Publishes among a list of channel actions, as (routing key, message). -/
def publishes (actions : List ChannelAction) : List (String × ResultMessage) :=
  actions.filterMap (fun a =>
    match a with
    | ChannelAction.basicPublish q m => some (q, m)
    | _ => none)

/-- Environment with an empty project table, no readable files, and a
subprocess runner that always reports success with empty output. -/
def env0 : Env where
  projects := fun _ => none
  readFile := fun _ => Except.error "ENOENT"
  runProcess := fun _ _ => (0, "")

/-- Environment for concrete scenarios: project `demo` at `/srv/demo` with
manifest entry `deploy: printf done`; project `app` at `/srv/app` whose
manifest read fails with an IOError; project `blank` mapped to the empty
path. Running `printf done` in `/srv/demo` yields exit 0 and output
`done`; any other invocation is reported by the shell as not found. -/
def demoEnv : Env where
  projects := fun p =>
    if p = "demo" then some "/srv/demo"
    else if p = "app" then some "/srv/app"
    else if p = "blank" then some ""
    else none
  readFile := fun path =>
    if path = "/srv/demo/bin/commands.procfile" then Except.ok "deploy: printf done"
    else Except.error "IOError: [Errno 2] No such file or directory"
  runProcess := fun cmd cwd =>
    if cmd = "printf done" && cwd = "/srv/demo" then (0, "done")
    else (127, "/bin/sh: command not found")

/-- Environment in which the resolved invocation `missing-tool --now`
cannot actually be started: the shell reports it as not found with exit
status 127 (honcho spawns through the shell, so no exception is raised). -/
def env127 : Env where
  projects := fun p => if p = "demo" then some "/srv/demo" else none
  readFile := fun path =>
    if path = "/srv/demo/bin/commands.procfile" then Except.ok "deploy: missing-tool --now"
    else Except.error "ENOENT"
  runProcess := fun _ _ => (127, "/bin/sh: missing-tool: command not found")

/-- Helper: when the project lookup yields nothing, `execute` returns
return code 1 with the explanatory message and performs no effects. -/
theorem execute_projects_none (env : Env) (order : Order)
    (h : env.projects order.project = none) :
    execute env order = ((1, "No project `" ++ order.project ++ "` found."), []) := by
  simp [execute, h]

/-- Helper: when the project lookup yields the empty string, `execute`
behaves identically to the unknown-project case. -/
theorem execute_projects_empty (env : Env) (order : Order)
    (h : env.projects order.project = some "") :
    execute env order = ((1, "No project `" ++ order.project ++ "` found."), []) := by
  simp only [execute, h]
  rw [if_pos (by decide : ("" : String).isEmpty = true)]

/-- C4: for every Order whose project identifier is absent from the
project-path table, `execute` returns return code 1 with the explanatory
message `No project ... found.` and performs no effects at all — in
particular no subprocess is ever spawned. -/
theorem c4_unknown_project_code1_no_spawn (env : Env) (order : Order)
    (h : env.projects order.project = none) :
    execute env order = ((1, "No project `" ++ order.project ++ "` found."), []) :=
  execute_projects_none env order h

/-- Witness for C4 at the concrete project `ghost` in `env0`. -/
theorem c4_unknown_project_code1_no_spawn_witness :
    env0.projects "ghost" = none ∧
    execute env0 { project := "ghost", command := "deploy", log_key := "k1", log_queue := "q1" } =
      ((1, "No project `" ++ "ghost" ++ "` found."), []) :=
  ⟨rfl, c4_unknown_project_code1_no_spawn env0
    { project := "ghost", command := "deploy", log_key := "k1", log_queue := "q1" } rfl⟩

/-- C10: a project present in the table but mapped to an empty (falsy)
path is treated exactly like an unknown project, because the code tests
the lookup result with `if not project_path` (truthiness) rather than
presence: return code 1, the same `No project ... found.` message, no
file read and no subprocess spawn; moreover the result coincides with what
`execute` returns when the project is removed from the table entirely. -/
theorem c10_empty_path_like_unknown (env : Env) (order : Order)
    (h : env.projects order.project = some "") :
    execute env order = ((1, "No project `" ++ order.project ++ "` found."), []) ∧
    execute env order =
      execute { env with projects := fun p => if p = order.project then none else env.projects p }
        order := by
  constructor
  · exact execute_projects_empty env order h
  · rw [execute_projects_empty env order h]
    rw [execute_projects_none _ order (by simp)]

/-- Witness for C10 at the concrete project `blank` in `demoEnv`. -/
theorem c10_empty_path_like_unknown_witness :
    demoEnv.projects "blank" = some "" ∧
    (execute demoEnv { project := "blank", command := "deploy", log_key := "k2", log_queue := "q2" } =
        ((1, "No project `" ++ "blank" ++ "` found."), []) ∧
      execute demoEnv { project := "blank", command := "deploy", log_key := "k2", log_queue := "q2" } =
        execute { demoEnv with
            projects := fun p => if p = "blank" then none else demoEnv.projects p }
          { project := "blank", command := "deploy", log_key := "k2", log_queue := "q2" }) :=
  ⟨rfl, c10_empty_path_like_unknown demoEnv
    { project := "blank", command := "deploy", log_key := "k2", log_queue := "q2" } rfl⟩

/-- C5: for every Order with a known project (truthy path) whose manifest
reads and parses but does not contain the requested command name,
`execute` returns return code 1 with the explanatory `No command ...`
message, and the only effect performed is the manifest read — no
subprocess is spawned. -/
theorem c5_unknown_command_code1_no_spawn (env : Env) (order : Order)
    (project_path contents : String)
    (h1 : env.projects order.project = some project_path)
    (h2 : project_path.isEmpty = false)
    (h3 : env.readFile (procfile_path project_path) = Except.ok contents)
    (h4 : commands_get (procfile_commands contents) order.command = none) :
    execute env order =
      ((1, "No command `" ++ order.command ++ "` found in " ++ procfile_path project_path),
       [Effect.fileRead (procfile_path project_path)]) := by
  simp [execute, h1, h2, h3, h4]

/-- Witness for C5: in `demoEnv`, project `demo` is known and its manifest
holds only `deploy`, so command `test` resolves to nothing. -/
theorem c5_unknown_command_code1_no_spawn_witness :
    demoEnv.projects "demo" = some "/srv/demo" ∧
    ("/srv/demo").isEmpty = false ∧
    demoEnv.readFile (procfile_path "/srv/demo") = Except.ok "deploy: printf done" ∧
    commands_get (procfile_commands "deploy: printf done") "test" = none ∧
    execute demoEnv { project := "demo", command := "test", log_key := "k5", log_queue := "q5" } =
      ((1, "No command `" ++ "test" ++ "` found in " ++ procfile_path "/srv/demo"),
       [Effect.fileRead (procfile_path "/srv/demo")]) :=
  ⟨rfl, rfl, rfl, rfl,
   c5_unknown_command_code1_no_spawn demoEnv
     { project := "demo", command := "test", log_key := "k5", log_queue := "q5" }
     "/srv/demo" "deploy: printf done" rfl rfl rfl rfl⟩

/-- C6: for every Order with a known project (truthy path) whose manifest
file cannot be opened or read, `execute` catches the IOError and returns
return code 1 with a message that ends with the underlying I/O error text;
the attempted manifest read is the only effect — no subprocess is
spawned. -/
theorem c6_manifest_unreadable_code1 (env : Env) (order : Order)
    (project_path err : String)
    (h1 : env.projects order.project = some project_path)
    (h2 : project_path.isEmpty = false)
    (h3 : env.readFile (procfile_path project_path) = Except.error err) :
    execute env order =
      ((1, "Error loading procfile for project `" ++ order.project ++ "`: " ++ err),
       [Effect.fileRead (procfile_path project_path)]) := by
  simp [execute, h1, h2, h3]

/-- Witness for C6: in `demoEnv`, project `app` is known but reading its
manifest fails with an IOError. -/
theorem c6_manifest_unreadable_code1_witness :
    demoEnv.projects "app" = some "/srv/app" ∧
    ("/srv/app").isEmpty = false ∧
    demoEnv.readFile (procfile_path "/srv/app") =
      Except.error "IOError: [Errno 2] No such file or directory" ∧
    execute demoEnv { project := "app", command := "deploy", log_key := "k6", log_queue := "q6" } =
      ((1, "Error loading procfile for project `" ++ "app" ++ "`: " ++
            "IOError: [Errno 2] No such file or directory"),
       [Effect.fileRead (procfile_path "/srv/app")]) :=
  ⟨rfl, rfl, rfl,
   c6_manifest_unreadable_code1 demoEnv
     { project := "app", command := "deploy", log_key := "k6", log_queue := "q6" }
     "/srv/app" "IOError: [Errno 2] No such file or directory" rfl rfl rfl⟩

/-- C3 counterexample: the invocation `missing-tool --now` cannot be
started (the shell reports it as not found, exit status 127). `execute`
does not catch or convert this: it returns the shell's return code 127 —
not 1 as the claim states — together with the shell's error text. -/
theorem c3_counterexample_spawn_failure_not_code1 :
    execute env127 { project := "demo", command := "deploy", log_key := "k3", log_queue := "q3" } =
      ((127, "/bin/sh: missing-tool: command not found"),
       [Effect.fileRead "/srv/demo/bin/commands.procfile",
        Effect.spawn "missing-tool --now" "/srv/demo"]) ∧
    (127 : Int) ≠ 1 :=
  ⟨rfl, by decide⟩

/-- C3 amended: `execute` contains no handler around process spawning;
once resolution succeeds it returns whatever `(returncode, output)` the
spawned shell produced, completely unchanged — so an invocation that
cannot be started surfaces as the shell's own exit code (e.g. 127) and
error text, not as return code 1. -/
theorem c3_amended_spawn_result_passthrough (env : Env) (order : Order)
    (project_path contents command : String)
    (h1 : env.projects order.project = some project_path)
    (h2 : project_path.isEmpty = false)
    (h3 : env.readFile (procfile_path project_path) = Except.ok contents)
    (h4 : commands_get (procfile_commands contents) order.command = some command)
    (h5 : command.isEmpty = false) :
    execute env order =
      (env.runProcess command project_path,
       [Effect.fileRead (procfile_path project_path),
        Effect.spawn command project_path]) := by
  simp [execute, h1, h2, h3, h4, h5]

/-- Witness for the amended C3 at `env127`, where the spawned shell
reports exit status 127. -/
theorem c3_amended_spawn_result_passthrough_witness :
    env127.projects "demo" = some "/srv/demo" ∧
    ("/srv/demo").isEmpty = false ∧
    env127.readFile (procfile_path "/srv/demo") = Except.ok "deploy: missing-tool --now" ∧
    commands_get (procfile_commands "deploy: missing-tool --now") "deploy" =
      some "missing-tool --now" ∧
    ("missing-tool --now").isEmpty = false ∧
    execute env127 { project := "demo", command := "deploy", log_key := "w3", log_queue := "w3q" } =
      (env127.runProcess "missing-tool --now" "/srv/demo",
       [Effect.fileRead (procfile_path "/srv/demo"),
        Effect.spawn "missing-tool --now" "/srv/demo"]) :=
  ⟨rfl, rfl, rfl, rfl, rfl,
   c3_amended_spawn_result_passthrough env127
     { project := "demo", command := "deploy", log_key := "w3", log_queue := "w3q" }
     "/srv/demo" "deploy: missing-tool --now" "missing-tool --now" rfl rfl rfl rfl rfl⟩

/-- Concrete inbound body for the spec's demo scenario. -/
def demoBody : RawBody :=
  RawBody.dict
    [("project", "demo"), ("command", "deploy"),
     ("log_key", "abc123"), ("log_queue", "logs.demo")]

/-- Order decoded from `demoBody`. -/
def demoOrder : Order :=
  { project := "demo", command := "deploy", log_key := "abc123", log_queue := "logs.demo" }

/-- C1: for every inbound message whose body decodes into an Order,
`consume_message` performs exactly one publish, to the queue named by the
order's `log_queue` — whatever `execute` did internally (unknown project,
unreadable manifest, unknown command, or a completed subprocess). -/
theorem c1_exactly_one_publish (env : Env) (body : RawBody) (order : Order)
    (h : parse_order body = Except.ok (some order)) :
    ∃ actions effects msg,
      consume_message env body = Except.ok (actions, effects) ∧
      publishes actions = [(order.log_queue, msg)] := by
  refine ⟨[ChannelAction.queueDeclare order.log_queue true,
           ChannelAction.basicPublish order.log_queue
             { version := "1.0", log_key := order.log_key,
               return_code := (execute env order).1.1,
               output := (execute env order).1.2 }],
          (execute env order).2, _, ?_, rfl⟩
  simp [consume_message, h]

/-- Witness for C1 on the demo scenario body. -/
theorem c1_exactly_one_publish_witness :
    parse_order demoBody = Except.ok (some demoOrder) ∧
    ∃ actions effects msg,
      consume_message demoEnv demoBody = Except.ok (actions, effects) ∧
      publishes actions = [(demoOrder.log_queue, msg)] :=
  ⟨rfl, c1_exactly_one_publish demoEnv demoBody demoOrder rfl⟩

/-- C2 counterexample: a body that is not parseable as JSON makes
`json.loads` raise, and the exception escapes `parse_order` (only
`KeyError` is caught there) and `consume_message` — contradicting the
claim that no exception propagates to the Worker Loop for unparseable
bodies. -/
theorem c2_counterexample_exception_propagates :
    consume_message env0 (RawBody.notJson "this is not json") =
      Except.error (PyError.valueError "No JSON object could be decoded: this is not json") :=
  rfl

/-- C2 amended: for a body that is not parseable as JSON, the decode
exception propagates uncaught through `parse_order` and `consume_message`
to the Worker Loop; no Order is produced and nothing is published. (Only a
body that parses as a record but lacks a required key is handled silently:
logged, no Order, nothing published — see the C7 theorem.) -/
theorem c2_amended_decode_error_propagates (env : Env) (body : RawBody) (e : PyError)
    (h : json_loads body = Except.error e) :
    consume_message env body = Except.error e := by
  simp [consume_message, parse_order, h]

/-- Witness for the amended C2 at a concrete unparseable body. -/
theorem c2_amended_decode_error_propagates_witness :
    json_loads (RawBody.notJson "oops") =
      Except.error (PyError.valueError "No JSON object could be decoded: oops") ∧
    consume_message env0 (RawBody.notJson "oops") =
      Except.error (PyError.valueError "No JSON object could be decoded: oops") :=
  ⟨rfl, c2_amended_decode_error_propagates env0 (RawBody.notJson "oops")
    (PyError.valueError "No JSON object could be decoded: oops") rfl⟩

/-- C7: for every body that parses as a record but is missing at least one
of the four required keys, `parse_order` returns no Order (the `KeyError`
is caught) and `consume_message` performs no channel action at all — in
particular nothing is published. -/
theorem c7_missing_key_nothing_published (env : Env) (fields : List (String × String))
    (h : dictGet fields "project" = none ∨ dictGet fields "command" = none ∨
         dictGet fields "log_key" = none ∨ dictGet fields "log_queue" = none) :
    parse_order (RawBody.dict fields) = Except.ok none ∧
    consume_message env (RawBody.dict fields) = Except.ok ([], []) := by
  have hp : parse_order (RawBody.dict fields) = Except.ok none := by
    simp only [parse_order, json_loads]
    rcases hproj : dictGet fields "project" with _ | p <;>
      rcases hcmd : dictGet fields "command" with _ | c <;>
        rcases hkey : dictGet fields "log_key" with _ | k <;>
          rcases hqueue : dictGet fields "log_queue" with _ | q <;>
            simp_all
  exact ⟨hp, by simp [consume_message, hp]⟩

/-- Witness for C7 at a concrete record lacking the `command` key. -/
theorem c7_missing_key_nothing_published_witness :
    (dictGet [("project", "demo"), ("log_key", "k7"), ("log_queue", "q7")] "project" = none ∨
     dictGet [("project", "demo"), ("log_key", "k7"), ("log_queue", "q7")] "command" = none ∨
     dictGet [("project", "demo"), ("log_key", "k7"), ("log_queue", "q7")] "log_key" = none ∨
     dictGet [("project", "demo"), ("log_key", "k7"), ("log_queue", "q7")] "log_queue" = none) ∧
    (parse_order (RawBody.dict [("project", "demo"), ("log_key", "k7"), ("log_queue", "q7")]) =
        Except.ok none ∧
      consume_message env0 (RawBody.dict [("project", "demo"), ("log_key", "k7"), ("log_queue", "q7")]) =
        Except.ok ([], [])) :=
  ⟨Or.inr (Or.inl rfl),
   c7_missing_key_nothing_published env0
     [("project", "demo"), ("log_key", "k7"), ("log_queue", "q7")] (Or.inr (Or.inl rfl))⟩

/-- C8: for every decoded order, `consume_message` first declares the
queue named by the order's `log_queue` with the durable flag, then
publishes to that same queue a Result Message holding exactly the four
fields version (the fixed string `1.0`), the order's `log_key` unchanged,
and the `(return_code, output)` pair computed by `execute`. -/
theorem c8_result_message_shape (env : Env) (body : RawBody) (order : Order)
    (h : parse_order body = Except.ok (some order)) :
    consume_message env body = Except.ok
      ([ChannelAction.queueDeclare order.log_queue true,
        ChannelAction.basicPublish order.log_queue
          { version := "1.0", log_key := order.log_key,
            return_code := (execute env order).1.1,
            output := (execute env order).1.2 }],
       (execute env order).2) := by
  simp [consume_message, h]

/-- Witness for C8: the spec's concrete scenario — order
`{project: demo, command: deploy, log_key: abc123, log_queue: logs.demo}`
with manifest entry `deploy: printf done` yields the result
`{version: 1.0, log_key: abc123, return_code: 0, output: done}` published
to `logs.demo`, declared durable first. -/
theorem c8_result_message_shape_witness :
    parse_order demoBody = Except.ok (some demoOrder) ∧
    consume_message demoEnv demoBody = Except.ok
      ([ChannelAction.queueDeclare "logs.demo" true,
        ChannelAction.basicPublish "logs.demo"
          { version := "1.0", log_key := "abc123", return_code := 0, output := "done" }],
       [Effect.fileRead "/srv/demo/bin/commands.procfile",
        Effect.spawn "printf done" "/srv/demo"]) :=
  ⟨rfl, c8_result_message_shape demoEnv demoBody demoOrder rfl⟩

/-- C9 counterexample: the decoder checks only key presence, never that
values are non-empty. A record whose `project` value is the empty string
decodes into an Order with an empty field, and that Order reaches the
Executor: `consume_message` calls `execute` on it and publishes its
result. -/
theorem c9_counterexample_empty_field_order :
    parse_order (RawBody.dict
        [("project", ""), ("command", "deploy"), ("log_key", "k9"), ("log_queue", "q9")]) =
      Except.ok (some { project := "", command := "deploy", log_key := "k9", log_queue := "q9" }) ∧
    ("").isEmpty = true ∧
    consume_message env0 (RawBody.dict
        [("project", ""), ("command", "deploy"), ("log_key", "k9"), ("log_queue", "q9")]) =
      Except.ok
        ([ChannelAction.queueDeclare "q9" true,
          ChannelAction.basicPublish "q9"
            { version := "1.0", log_key := "k9", return_code := 1,
              output := "No project `` found." }],
         []) :=
  ⟨rfl, rfl, rfl⟩

/-- C9 amended: every Order produced by the decoder has its four fields
equal to the values found under the four required keys — presence is all
that is validated; the values may be empty strings and such an Order is
still produced (and then passed to `execute`, see the counterexample). -/
theorem c9_amended_presence_only (fields : List (String × String)) (p c k q : String)
    (h1 : dictGet fields "project" = some p)
    (h2 : dictGet fields "command" = some c)
    (h3 : dictGet fields "log_key" = some k)
    (h4 : dictGet fields "log_queue" = some q) :
    parse_order (RawBody.dict fields) =
      Except.ok (some { project := p, command := c, log_key := k, log_queue := q }) := by
  simp [parse_order, json_loads, h1, h2, h3, h4]

/-- Witness for the amended C9: a record whose four values are all empty
strings still decodes into an Order. -/
theorem c9_amended_presence_only_witness :
    dictGet [("project", ""), ("command", ""), ("log_key", ""), ("log_queue", "")] "project" =
      some "" ∧
    dictGet [("project", ""), ("command", ""), ("log_key", ""), ("log_queue", "")] "command" =
      some "" ∧
    dictGet [("project", ""), ("command", ""), ("log_key", ""), ("log_queue", "")] "log_key" =
      some "" ∧
    dictGet [("project", ""), ("command", ""), ("log_key", ""), ("log_queue", "")] "log_queue" =
      some "" ∧
    parse_order (RawBody.dict
        [("project", ""), ("command", ""), ("log_key", ""), ("log_queue", "")]) =
      Except.ok (some { project := "", command := "", log_key := "", log_queue := "" }) :=
  ⟨rfl, rfl, rfl, rfl,
   c9_amended_presence_only
     [("project", ""), ("command", ""), ("log_key", ""), ("log_queue", "")]
     "" "" "" "" rfl rfl rfl rfl⟩

end Shove
